import Mathlib

/-!
Shallow embedding of src/mcp/run_agent.py (the OpenFrontIO MCP agent).

Python values flowing through the client are modelled by an inductive
JSON type; Python exceptions (subclasses of Exception) are modelled by
the PyErr type, and fallible Python functions return Except PyErr.
External effects (the peer process, the LLM) are modelled as oracles:
the bytes or parsed values they would deliver are passed in as
arguments, so each Python method becomes a pure Lean function of its
inputs and the oracle data.
-/

/-- Model of a Python JSON value as produced by json.loads. Numbers are
modelled as integers (the agent only handles integral fields). -/
inductive Json where
  | null : Json
  | bool : Bool → Json
  | num : Int → Json
  | str : String → Json
  | arr : List Json → Json
  | obj : List (String × Json) → Json

/-- Field lookup on a JSON object: first binding wins (Python dicts have
unique keys, so first-match lookup agrees with dict access). Returns
none on a non-object, mirroring that key access on a non-dict raises in
Python. -/
def Json.getField : Json → String → Option Json
  | .obj fields, key => fields.lookup key
  | _, _ => none

/-- Python truthiness of a JSON value, as used by bare if-tests. -/
def Json.truthy : Json → Bool
  | .null => false
  | .bool b => b
  | .num n => n != 0
  | .str s => s != ""
  | .arr xs => !xs.isEmpty
  | .obj fs => !fs.isEmpty

/-- Model of a raised Python exception (an Exception subclass).
transportClosed is the RuntimeError raised on an empty stdout read;
jsonDecodeError is json.JSONDecodeError; remoteError carries the error
object embedded in the RuntimeError message for an error response;
typeError and keyError model duck-typing failures; exc is any other
exception raised by an external collaborator. -/
inductive PyErr where
  | transportClosed : PyErr
  | jsonDecodeError : PyErr
  | remoteError : Json → PyErr
  | typeError : PyErr
  | keyError : PyErr
  | exc : String → PyErr

/-- Mutable state of MCPClient relevant to the protocol: the request id
counter (self.request_id, incremented before each send). -/
structure MCPClientState where
  request_id : Int

/-- Everything observable about one MCPClient.send_request call: the
updated client state, the JSON-RPC request written to stdin, and the
returned result or raised exception. -/
structure SendOutcome where
  newState : MCPClientState
  sent : Json
  response : Except PyErr (Option Json)

/-- MCPClient.send_request. The peer is an oracle: responseLine is what
self.process.stdout.readline() delivers (empty string models EOF), and
parse models json.loads on one line (none models JSONDecodeError).
Mirrors the source: bump request_id, build the request object, write it,
read one line, fail on EOF, parse, fail on an error field, otherwise
return response.get with key result (Python None modelled as none).
The id field of the arriving response is never inspected. -/
def MCPClient.send_request (st : MCPClientState) (method : String) (params : Json)
    (parse : String → Option Json) (responseLine : String) : SendOutcome :=
  let rid : Int := st.request_id + 1
  let req : Json := .obj [("jsonrpc", .str "2.0"), ("id", .num rid),
                          ("method", .str method), ("params", params)]
  let resp : Except PyErr (Option Json) :=
    if responseLine = "" then
      .error .transportClosed
    else
      match parse responseLine with
      | none => .error .jsonDecodeError
      | some r =>
        match r with
        | .obj fields =>
          match Json.getField (.obj fields) "error" with
          | some err => .error (.remoteError err)
          | none => .ok (Json.getField (.obj fields) "result")
        | _ => .error .typeError
  ⟨⟨rid⟩, req, resp⟩

/-- MCPClient.read_resource, applied to the result value delivered by
send_request for the resources/read call (none models Python None).
Mirrors the source: contents := result.get with key contents and
default empty list; if contents is truthy, return the first item.get
with key text and default empty string; otherwise return the empty
string. Duck-typing failures (result not a dict, a truthy non-list
contents, a first item without attribute get) raise. -/
def MCPClient.read_resource (result : Option Json) : Except PyErr Json :=
  match result with
  | some (Json.obj fields) =>
    match (Json.getField (.obj fields) "contents").getD (.arr []) with
    | .arr [] => .ok (.str "")
    | .arr (c :: _) =>
      match c with
      | .obj cf => .ok ((Json.getField (.obj cf) "text").getD (.str ""))
      | _ => .error .typeError
    | other => if other.truthy then .error .typeError else .ok (.str "")
  | _ => .error .typeError

/-- MCPClient.list_tools, applied to the result value delivered by
send_request for the tools/list call: result.get with key tools and
default empty list. The caller iterates the returned value as a list,
so a non-list tools field raises at use. -/
def MCPClient.list_tools (result : Option Json) : Except PyErr (List Json) :=
  match result with
  | some (Json.obj fields) =>
    match (Json.getField (.obj fields) "tools").getD (.arr []) with
    | .arr ts => .ok ts
    | _ => .error .typeError
  | _ => .error .typeError

/-- MCPClient.call_tool, applied to the result value delivered by
send_request for the tools/call request. Mirrors the source: contents
:= result.get with key content and default empty list; if truthy, take
the first item, text := item.get with key text and default empty
string, then attempt json.loads (the parse oracle), returning the raw
text when decoding fails (json.JSONDecodeError is caught); if contents
is falsy, return Python None (modelled as Json.null). json.loads on a
non-string text raises TypeError, which is not caught. -/
def MCPClient.call_tool (parse : String → Option Json) (result : Option Json) :
    Except PyErr Json :=
  match result with
  | some (Json.obj fields) =>
    match (Json.getField (.obj fields) "content").getD (.arr []) with
    | .arr [] => .ok .null
    | .arr (c :: _) =>
      match c with
      | .obj cf =>
        match (Json.getField (.obj cf) "text").getD (.str "") with
        | .str s =>
          match parse s with
          | some v => .ok v
          | none => .ok (.str s)
        | _ => .error .typeError
      | _ => .error .typeError
    | other => if other.truthy then .error .typeError else .ok .null
  | _ => .error .typeError

/-- The adapted (OpenAI function-calling) form of one MCP tool
descriptor, as built in the loop body of
GameAgent.convert_mcp_tools_to_openai_format: name passed through from
the mandatory name field, description from the description field with
default empty string, parameters from the inputSchema field with
default empty object. -/
def adapt_tool (tool : Json) : Json :=
  .obj [("type", .str "function"),
        ("function", .obj [
          ("name", (Json.getField tool "name").getD .null),
          ("description", (Json.getField tool "description").getD (.str "")),
          ("parameters", (Json.getField tool "inputSchema").getD (.obj []))])]

/-- One iteration of the conversion loop: subscripting tool with key
name raises KeyError when absent (and TypeError on a non-dict), the
two .get accesses default. -/
def convert_tool (tool : Json) : Except PyErr Json :=
  match tool with
  | .obj fields =>
    match Json.getField (.obj fields) "name" with
    | some _ => .ok (adapt_tool (.obj fields))
    | none => .error .keyError
  | _ => .error .typeError

/-- GameAgent.convert_mcp_tools_to_openai_format: builds the adapted
list by appending one converted entry per fetched tool, left to right;
the first raising iteration propagates. -/
def convert_mcp_tools_to_openai_format : List Json → Except PyErr (List Json)
  | [] => .ok []
  | t :: ts =>
    match convert_tool t with
    | .error e => .error e
    | .ok ot =>
      match convert_mcp_tools_to_openai_format ts with
      | .error e => .error e
      | .ok rest => .ok (ot :: rest)

/-- Whether the character list hay starts with the character list pat. -/
def startsWithChars : List Char → List Char → Bool
  | _, [] => true
  | [], _ :: _ => false
  | h :: hs, p :: ps => if h = p then startsWithChars hs ps else false

/-- Whether pat occurs as a contiguous run somewhere in hay. -/
def containsSub (pat : List Char) : List Char → Bool
  | [] => startsWithChars [] pat
  | h :: hs => startsWithChars (h :: hs) pat || containsSub pat hs

/-- Python substring membership test, pat in s, as used by the noise
filter: a plain case-sensitive containment check. -/
def pyIn (pat s : String) : Bool :=
  containsSub pat.toList s.toList

/-- The configured noise substrings from MCPClient._read_stderr,
verbatim from the source list. -/
def NOISE_SUBSTRINGS : List String :=
  ["Received game update",
   "Broadcasting game update",
   "Game state updated",
   "Tick:",
   "packedTileUpdates"]

/-- The noise test from MCPClient._read_stderr: any configured noise
substring occurring in the decoded line makes it noise. -/
def is_noise (decoded : String) : Bool :=
  NOISE_SUBSTRINGS.any (fun noise => pyIn noise decoded)

/-- What one iteration of the stderr reader loop does with one line:
the decoded text is always put on the stderr queue; it is printed to
the console only when it is not noise. -/
structure StderrEffect where
  queued : String
  printed : Option String

/-- One iteration of MCPClient._read_stderr for one diagnostic line.
The byte-level utf-8 decode and whitespace strip are transport
concerns, so the oracle delivers the decoded, stripped text; the
iteration enqueues it and then either skips it (noise) or prints
it. -/
def read_stderr_step (decoded : String) : StderrEffect :=
  ⟨decoded, if is_noise decoded then none else some decoded⟩

/-- One tool-call request inside the LLM response: the function name
and the arguments as a raw JSON string (parsed with json.loads in the
turn loop before the tool is invoked). -/
structure ToolCallReq where
  name : String
  arguments : String

/-- The parts of the LLM chat-completion message the turn loop reads:
the requested tool calls (empty list when the attribute is missing or
falsy) and the free-text content. -/
structure LLMMessage where
  tool_calls : List ToolCallReq
  content : Option String

/-- Oracle for the external effects of one turn: the outcome of
get_game_state (read the game state resource and json.loads it), the
outcome of the LLM chat-completion call, and the outcome of
MCPClient.call_tool for each named invocation. -/
structure TurnOracle where
  fetchState : Except PyErr Json
  llmResponse : Except PyErr LLMMessage
  runTool : String → Json → Except PyErr Json

/-- Observable outcome of one GameAgent.execute_turn call: the tool
invocations actually issued, in order (name and parsed arguments), and
the exception caught and logged at the turn boundary, if any.
execute_turn returns normally in both cases: the except block at the
turn boundary swallows every Exception. -/
structure TurnOutcome where
  calls : List (String × Json)
  caughtError : Option PyErr

/-- The tool-execution loop inside GameAgent.execute_turn: for each
requested call in order, json.loads the argument string (a decode
failure raises out of the loop), invoke the tool, and continue with
the next call only when the invocation returned normally; the first
exception ends the loop and is reported. Returns the invocations
issued and the escaping exception, if any. -/
def run_tool_calls (runTool : String → Json → Except PyErr Json)
    (argParse : String → Option Json) :
    List ToolCallReq → List (String × Json) × Option PyErr
  | [] => ([], none)
  | tc :: rest =>
    match argParse tc.arguments with
    | none => ([], some .jsonDecodeError)
    | some args =>
      match runTool tc.name args with
      | .error e => ([(tc.name, args)], some e)
      | .ok _ =>
        let r := run_tool_calls runTool argParse rest
        ((tc.name, args) :: r.1, r.2)

/-- GameAgent.execute_turn: fetch the game state, build the prompt
(attribute access on the state requires a mapping), convert the
session tool list, query the LLM, and run the requested tool calls;
the try block spans all of this, and every Exception raised inside it
is caught, logged, and not re-raised, so the function always returns a
TurnOutcome. -/
def execute_turn (tools : List Json) (o : TurnOracle)
    (argParse : String → Option Json) : TurnOutcome :=
  match o.fetchState with
  | .error e => ⟨[], some e⟩
  | .ok state =>
    match state with
    | .obj _ =>
      match convert_mcp_tools_to_openai_format tools with
      | .error e => ⟨[], some e⟩
      | .ok _openaiTools =>
        match o.llmResponse with
        | .error e => ⟨[], some e⟩
        | .ok msg =>
          match msg.tool_calls with
          | [] => ⟨[], none⟩
          | tc :: rest =>
            let r := run_tool_calls o.runTool argParse (tc :: rest)
            ⟨r.1, r.2⟩
    | _ => ⟨[], some .typeError⟩

/-- The main turn loop of main, truncated to the first fuel
iterations: while True, execute_turn then sleep. The oracle for turn
k is oracles k. The list of outcomes is returned in turn order. -/
def run_turns (tools : List Json) (oracles : Nat → TurnOracle)
    (argParse : String → Option Json) : Nat → List TurnOutcome
  | 0 => []
  | n + 1 =>
    execute_turn tools (oracles 0) argParse ::
      run_turns tools (fun k => oracles (k + 1)) argParse n

/-- Agent state produced by a successful GameAgent.initialize: the
fetched tool list, the optional map summary (None when the fetch
failed), and whether the could-not-load warning was printed. -/
structure AgentState where
  tools : List Json
  map_summary : Option Json
  warned : Bool

/-- GameAgent.initialize, on the outcomes of its two fetches: the
tools/list fetch is outside any try block, so its exception
propagates (as does the KeyError from printing a tool without a name
field); the map-summary fetch sits in a try block whose except arm
only prints a warning. -/
def GameAgent.initAgent (listToolsResult : Except PyErr (List Json))
    (mapSummaryResult : Except PyErr Json) : Except PyErr AgentState :=
  match listToolsResult with
  | .error e => .error e
  | .ok ts =>
    if ts.all (fun t => (Json.getField t "name").isSome) then
      match mapSummaryResult with
      | .error _ => .ok ⟨ts, none, true⟩
      | .ok s => .ok ⟨ts, some s, false⟩
    else .error .keyError

/-- Observable outcome of one session (main), with the turn loop
truncated at fuel iterations: the exception that reached the outer
except handler (none when the loop was truncated while still
running), the initialized agent state when initialization succeeded,
the turn outcomes, and whether the finally block ran the cleanup. -/
structure SessionResult where
  fatal : Option PyErr
  agent : Option AgentState
  turns : List TurnOutcome
  cleanupRan : Bool

/-- The body of main from initialization on: initialize the agent,
then run the turn loop. An exception escaping initialization reaches
the outer except handler (fatal, no turns run); the finally block
always terminates the server process. The turn loop itself never
raises (execute_turn catches per-turn errors), so with a successful
initialization the session only ends by truncation here. -/
def main_run (listToolsResult : Except PyErr (List Json))
    (mapSummaryResult : Except PyErr Json) (oracles : Nat → TurnOracle)
    (argParse : String → Option Json) (fuel : Nat) : SessionResult :=
  match GameAgent.initAgent listToolsResult mapSummaryResult with
  | .error e => ⟨some e, none, [], true⟩
  | .ok ag => ⟨none, some ag, run_turns ag.tools oracles argParse fuel, true⟩

/-! Helper lemmas shared by several claim theorems. -/

theorem startsWithChars_self_append (p b : List Char) :
    startsWithChars (p ++ b) p = true := by
  induction p with
  | nil => simp [startsWithChars]
  | cons h hs ih => simpa [startsWithChars] using ih

theorem containsSub_of_startsWithChars (pat hay : List Char)
    (h : startsWithChars hay pat = true) : containsSub pat hay = true := by
  cases hay with
  | nil => simpa [containsSub] using h
  | cons c cs => simp [containsSub, h]

theorem containsSub_append_left (pat pre hay : List Char)
    (h : containsSub pat hay = true) : containsSub pat (pre ++ hay) = true := by
  induction pre with
  | nil => simpa using h
  | cons c cs ih => simp [containsSub, ih]

theorem toList_string_append (s t : String) :
    (s ++ t).toList = s.toList ++ t.toList := by
  cases s
  cases t
  rfl

theorem pyIn_surrounded (pre p post : String) : pyIn p (pre ++ p ++ post) = true := by
  unfold pyIn
  rw [toList_string_append, toList_string_append, List.append_assoc]
  exact containsSub_append_left _ _ _
    (containsSub_of_startsWithChars _ _ (startsWithChars_self_append _ _))

theorem run_turns_length (n : Nat) :
    ∀ (tools : List Json) (oracles : Nat → TurnOracle)
      (argParse : String → Option Json),
      (run_turns tools oracles argParse n).length = n := by
  induction n with
  | zero => intro tools oracles argParse; rfl
  | succ n ih =>
      intro tools oracles argParse
      simp [run_turns, ih]

theorem run_turns_getElem (n : Nat) :
    ∀ (k : Nat) (tools : List Json) (oracles : Nat → TurnOracle)
      (argParse : String → Option Json), k < n →
      (run_turns tools oracles argParse n)[k]? =
        some (execute_turn tools (oracles k) argParse) := by
  induction n with
  | zero => intro k tools oracles argParse hk; exact absurd hk (Nat.not_lt_zero k)
  | succ n ih =>
      intro k tools oracles argParse hk
      cases k with
      | zero => simp [run_turns]
      | succ k =>
          have hk2 : k < n := Nat.lt_of_succ_lt_succ hk
          simpa [run_turns] using ih k tools (fun j => oracles (j + 1)) argParse hk2

/-! Claim C4 (corrected): noise suppression. -/

/-- Claim C4 counterexample: the line TICK: 5 contains the configured noise
substring Tick: up to letter case (their lowered character lists show
the containment), so the claim says it is suppressed; the code matches
case-sensitively, classifies it as not noise, and prints it. -/
theorem noise_suppression_depends_on_case :
    (read_stderr_step "TICK: 5").printed = some "TICK: 5" ∧
    is_noise "TICK: 5" = false ∧
    "Tick:" ∈ NOISE_SUBSTRINGS ∧
    containsSub ("Tick:".toList.map Char.toLower)
      ("TICK: 5".toList.map Char.toLower) = true := by
  refine ⟨?_, by decide, by decide, by decide⟩
  simp [read_stderr_step, show is_noise "TICK: 5" = false by decide]

/-- Claim C4 (amended): a diagnostic line is suppressed from user-facing
output if and only if it contains at least one configured noise
substring under a case-sensitive match; the match is independent of
the position of the substring within the line, and a line containing
no configured noise substring (case-sensitively) is never
suppressed. -/
theorem noise_suppression_iff_substring :
    (∀ decoded : String,
        (read_stderr_step decoded).printed = none ↔ is_noise decoded = true) ∧
    (∀ decoded : String,
        is_noise decoded = true ↔
          ∃ p ∈ NOISE_SUBSTRINGS, pyIn p decoded = true) ∧
    (∀ pre post p : String, p ∈ NOISE_SUBSTRINGS →
        is_noise (pre ++ p ++ post) = true) := by
  refine ⟨?_, ?_, ?_⟩
  · intro decoded
    simp only [read_stderr_step]
    constructor
    · intro h
      by_contra hn
      simp [Bool.not_eq_true] at hn
      simp [hn] at h
    · intro h
      simp [h]
  · intro decoded
    simp [is_noise, List.any_eq_true]
  · intro pre post p hp
    have hin : pyIn p (pre ++ p ++ post) = true := pyIn_surrounded pre p post
    simp only [is_noise, List.any_eq_true]
    exact ⟨p, hp, hin⟩

/-- Witness for the C4 theorem at concrete inputs: a noise substring
surrounded by arbitrary text is suppressed. -/
theorem noise_suppression_iff_substring_witness :
    is_noise ("x " ++ "Tick:" ++ " y") = true :=
  noise_suppression_iff_substring.2.2 "x " " y" "Tick:" (by decide)

/-! Claim C1 (corrected): response id correlation. -/

/-- Parse oracle for the C1 counterexample: the single response line R
decodes to a response whose id, 99, differs from the id the client
just sent, 1. -/
def parseMismatchedId : String → Option Json := fun line =>
  if line = "R" then
    some (.obj [("jsonrpc", .str "2.0"), ("id", .num 99), ("result", .num 5)])
  else none

/-- Claim C1 counterexample: the client sends a request with id 1, the
arriving response carries id 99, and send_request nonetheless returns
that response as a result (.ok (some 5)) instead of raising; no
equality check between the two ids exists in the code. -/
theorem mismatched_id_returned_as_result :
    Json.getField (MCPClient.send_request ⟨0⟩ "tools/list" (Json.obj [])
        parseMismatchedId "R").sent "id" = some (Json.num 1) ∧
    (parseMismatchedId "R").bind (fun r => Json.getField r "id")
        = some (Json.num 99) ∧
    (MCPClient.send_request ⟨0⟩ "tools/list" (Json.obj [])
        parseMismatchedId "R").response = .ok (some (Json.num 5)) :=
  ⟨rfl, rfl, rfl⟩

/-- Claim C1 (amended): send_request performs no id correlation at all. For
every arriving response that parses as an object without an error
field, the call returns that response's result field, whatever the
response's id is; in particular a response whose id differs from the
id of the most recently sent request (always the incremented counter)
is returned as a result, not raised. -/
theorem send_request_ignores_response_id
    (st : MCPClientState) (method : String) (params : Json)
    (parse : String → Option Json) (line : String)
    (fields : List (String × Json))
    (hline : line ≠ "")
    (hparse : parse line = some (Json.obj fields))
    (herr : Json.getField (Json.obj fields) "error" = none) :
    (MCPClient.send_request st method params parse line).response
        = .ok (Json.getField (Json.obj fields) "result") ∧
    Json.getField (MCPClient.send_request st method params parse line).sent "id"
        = some (Json.num (st.request_id + 1)) := by
  constructor
  · simp [MCPClient.send_request, hline, hparse, herr]
  · simp [MCPClient.send_request, Json.getField, List.lookup]

/-- Witness for the C1 theorem at the concrete mismatched-id input. -/
theorem send_request_ignores_response_id_witness :
    (MCPClient.send_request ⟨0⟩ "tools/list" (Json.obj [])
        parseMismatchedId "R").response = .ok (some (Json.num 5)) :=
  (send_request_ignores_response_id ⟨0⟩ "tools/list" (Json.obj [])
      parseMismatchedId "R"
      [("jsonrpc", .str "2.0"), ("id", .num 99), ("result", .num 5)]
      (by decide) rfl rfl).1

/-! Claim C7 (confirmed): error responses raise with the error object. -/

/-- Claim C7: for every arriving response that parses as an object carrying
an error field, send_request raises the remote-error exception
carrying that error object verbatim (hence its code and its message),
and does not return a result. -/
theorem send_request_raises_remote_error
    (st : MCPClientState) (method : String) (params : Json)
    (parse : String → Option Json) (line : String)
    (fields : List (String × Json)) (err : Json)
    (hline : line ≠ "")
    (hparse : parse line = some (Json.obj fields))
    (herr : Json.getField (Json.obj fields) "error" = some err) :
    (MCPClient.send_request st method params parse line).response
        = .error (.remoteError err) := by
  simp [MCPClient.send_request, hline, hparse, herr]

/-- Parse oracle for the C7 witness: scenario B, a response carrying
error code -1 and message bad. -/
def parseErrorResponse : String → Option Json := fun line =>
  if line = "E" then
    some (.obj [("jsonrpc", .str "2.0"), ("id", .num 1),
                ("error", .obj [("code", .num (-1)), ("message", .str "bad")])])
  else none

/-- Witness for the C7 theorem at scenario B: the raised exception
carries the error object whose code field is -1 and whose message
field is bad. -/
theorem send_request_raises_remote_error_witness :
    (MCPClient.send_request ⟨0⟩ "tools/call" (Json.obj [])
        parseErrorResponse "E").response
      = .error (.remoteError
          (.obj [("code", .num (-1)), ("message", .str "bad")])) ∧
    Json.getField (.obj [("code", Json.num (-1)), ("message", .str "bad")]) "code"
      = some (.num (-1)) ∧
    Json.getField (.obj [("code", Json.num (-1)), ("message", .str "bad")]) "message"
      = some (.str "bad") :=
  ⟨send_request_raises_remote_error ⟨0⟩ "tools/call" (Json.obj [])
      parseErrorResponse "E"
      [("jsonrpc", .str "2.0"), ("id", .num 1),
       ("error", .obj [("code", .num (-1)), ("message", .str "bad")])]
      (.obj [("code", .num (-1)), ("message", .str "bad")])
      (by decide) rfl rfl,
   rfl, rfl⟩

/-! Claim C6 (corrected): end-of-input on the primary stream. -/

/-- Turn oracle for the C6 counterexample: on turn 0 the state fetch
hits the closed stdout (the RuntimeError from the empty read
propagates out of send_request into get_game_state); later turns see
a healthy peer. -/
def closedThenHealthyOracle : Nat → TurnOracle := fun k =>
  if k = 0 then
    ⟨.error .transportClosed, .ok ⟨[], some "idle"⟩, fun _ _ => .ok .null⟩
  else
    ⟨.ok (.obj []), .ok ⟨[], some "idle"⟩, fun _ _ => .ok .null⟩

/-- Claim C6 counterexample: the primary stream closes during the first
turn's call; the turn-boundary handler catches the raised exception
and the loop runs the next turn normally — the session does not
terminate, contradicting the claim that it terminates after cleanup
rather than continuing the turn loop. -/
theorem transport_closed_mid_turn_does_not_end_session :
    (main_run (.ok []) (.ok (.str "m")) closedThenHealthyOracle
        (fun _ => none) 2).turns
      = [⟨[], some .transportClosed⟩, ⟨[], none⟩] ∧
    (main_run (.ok []) (.ok (.str "m")) closedThenHealthyOracle
        (fun _ => none) 2).fatal = none :=
  ⟨rfl, rfl⟩

/-- Claim C6 (amended): an empty read of the primary output stream makes the
call raise the transport-closed exception, which is then handled like
any other Exception by whatever handler surrounds the call. It is
fatal — the session terminates after the cleanup runs — only when it
escapes an unguarded context, namely the tools/list fetch of
initialization; when it is raised inside a turn it is caught at the
turn boundary and the turn loop continues, and when it is raised by
the try-guarded map-summary fetch of initialization it is swallowed
with a warning and the session proceeds into the turn loop. -/
theorem transport_closed_raises_and_is_turn_scoped :
    (∀ (st : MCPClientState) (method : String) (params : Json)
        (parse : String → Option Json),
        (MCPClient.send_request st method params parse "").response
          = .error .transportClosed) ∧
    (∀ (mapRes : Except PyErr Json) (oracles : Nat → TurnOracle)
        (argParse : String → Option Json) (fuel : Nat),
        main_run (.error .transportClosed) mapRes oracles argParse fuel
          = ⟨some .transportClosed, none, [], true⟩) ∧
    (∀ (ts : List Json) (oracles : Nat → TurnOracle)
        (argParse : String → Option Json) (fuel : Nat),
        ts.all (fun t => (Json.getField t "name").isSome) = true →
        main_run (.ok ts) (.error .transportClosed) oracles argParse fuel =
          ⟨none, some ⟨ts, none, true⟩, run_turns ts oracles argParse fuel, true⟩) ∧
    (∀ (tools : List Json) (o : TurnOracle) (argParse : String → Option Json),
        o.fetchState = .error .transportClosed →
        execute_turn tools o argParse = ⟨[], some .transportClosed⟩) ∧
    (∀ (tools : List Json) (oracles : Nat → TurnOracle)
        (argParse : String → Option Json) (n : Nat),
        (run_turns tools oracles argParse n).length = n) := by
  refine ⟨?_, ?_, ?_, ?_, ?_⟩
  · intro st method params parse
    simp [MCPClient.send_request]
  · intro mapRes oracles argParse fuel
    simp [main_run, GameAgent.initAgent]
  · intro ts oracles argParse fuel h
    simp [main_run, GameAgent.initAgent, h]
  · intro tools o argParse h
    simp [execute_turn, h]
  · intro tools oracles argParse n
    exact run_turns_length n tools oracles argParse

/-- Witness for the C6 theorem at concrete inputs: the empty-read
raise, the fatal tools-fetch case, the swallowed map-summary case
(the session still runs its turns), the caught mid-turn case, and the
surviving loop. -/
theorem transport_closed_raises_and_is_turn_scoped_witness :
    (MCPClient.send_request ⟨0⟩ "resources/read" (Json.obj [])
        parseMismatchedId "").response = .error .transportClosed ∧
    main_run (.error .transportClosed) (.ok (.str "m")) closedThenHealthyOracle
        (fun _ => none) 5 = ⟨some .transportClosed, none, [], true⟩ ∧
    main_run (.ok [Json.obj [("name", .str "t")]]) (.error .transportClosed)
        closedThenHealthyOracle (fun _ => none) 1 =
      ⟨none, some ⟨[Json.obj [("name", .str "t")]], none, true⟩,
       run_turns [Json.obj [("name", .str "t")]] closedThenHealthyOracle
          (fun _ => none) 1, true⟩ ∧
    execute_turn [] (closedThenHealthyOracle 0) (fun _ => none)
        = ⟨[], some .transportClosed⟩ ∧
    (run_turns [] closedThenHealthyOracle (fun _ => none) 2).length = 2 :=
  ⟨transport_closed_raises_and_is_turn_scoped.1 ⟨0⟩ "resources/read"
      (Json.obj []) parseMismatchedId,
   transport_closed_raises_and_is_turn_scoped.2.1 (.ok (.str "m"))
      closedThenHealthyOracle (fun _ => none) 5,
   transport_closed_raises_and_is_turn_scoped.2.2.1 [Json.obj [("name", .str "t")]]
      closedThenHealthyOracle (fun _ => none) 1 (by decide),
   transport_closed_raises_and_is_turn_scoped.2.2.2.1 [] (closedThenHealthyOracle 0)
      (fun _ => none) rfl,
   transport_closed_raises_and_is_turn_scoped.2.2.2.2 [] closedThenHealthyOracle
      (fun _ => none) 2⟩

/-! Claim C2 (confirmed): per-turn exceptions never kill the loop. -/

/-- Claim C2: every exception raised inside the body of a turn (state fetch,
prompt construction and tool conversion, policy invocation, operation
execution) is caught at the turn boundary and recorded in the turn
outcome, and the loop then proceeds: for every oracle, including ones
whose every operation raises, the loop truncated at n iterations
performs exactly n turns, turn k being the execute_turn of oracle k.
execute_turn is a total function into TurnOutcome, so no per-turn
exception can escape into the session loop. -/
theorem turn_exceptions_caught_loop_proceeds :
    (∀ (tools : List Json) (o : TurnOracle) (argParse : String → Option Json)
        (e : PyErr), o.fetchState = .error e →
        execute_turn tools o argParse = ⟨[], some e⟩) ∧
    (∀ (tools : List Json) (o : TurnOracle) (argParse : String → Option Json)
        (fs : List (String × Json)) (ots : List Json) (e : PyErr),
        o.fetchState = .ok (Json.obj fs) →
        convert_mcp_tools_to_openai_format tools = .ok ots →
        o.llmResponse = .error e →
        execute_turn tools o argParse = ⟨[], some e⟩) ∧
    (∀ (tools : List Json) (oracles : Nat → TurnOracle)
        (argParse : String → Option Json) (n : Nat),
        (run_turns tools oracles argParse n).length = n) ∧
    (∀ (tools : List Json) (oracles : Nat → TurnOracle)
        (argParse : String → Option Json) (n k : Nat), k < n →
        (run_turns tools oracles argParse n)[k]? =
          some (execute_turn tools (oracles k) argParse)) := by
  refine ⟨?_, ?_, ?_, ?_⟩
  · intro tools o argParse e h
    simp [execute_turn, h]
  · intro tools o argParse fs ots e hs hc hl
    simp [execute_turn, hs, hc, hl]
  · intro tools oracles argParse n
    exact run_turns_length n tools oracles argParse
  · intro tools oracles argParse n k hk
    exact run_turns_getElem n k tools oracles argParse hk

/-- Turn oracle for the C2 witness: every external operation of every
turn raises. -/
def allFailingOracle : Nat → TurnOracle := fun _ =>
  ⟨.error (.exc "down"), .error (.exc "down"), fun _ _ => .error (.exc "down")⟩

/-- Witness for the C2 theorem: with every operation of every turn
raising, each turn still completes with its error recorded and the
loop still performs all of its turns. -/
theorem turn_exceptions_caught_loop_proceeds_witness :
    execute_turn [] (allFailingOracle 0) (fun _ => none)
        = ⟨[], some (.exc "down")⟩ ∧
    (run_turns [] allFailingOracle (fun _ => none) 3).length = 3 ∧
    (run_turns [] allFailingOracle (fun _ => none) 3)[2]? =
      some (execute_turn [] (allFailingOracle 2) (fun _ => none)) :=
  ⟨turn_exceptions_caught_loop_proceeds.1 [] (allFailingOracle 0)
      (fun _ => none) (.exc "down") rfl,
   turn_exceptions_caught_loop_proceeds.2.2.1 [] allFailingOracle
      (fun _ => none) 3,
   turn_exceptions_caught_loop_proceeds.2.2.2 [] allFailingOracle
      (fun _ => none) 3 2 (by decide)⟩

/-! Claim C3 (corrected): operation execution within a turn. -/

/-- Argument parse oracle for the C3 theorems: the string argsA
decodes to one small argument object. -/
def demoArgParse : String → Option Json := fun s =>
  if s = "argsA" then some (.obj [("x", .num 1)]) else none

/-- Turn oracle for the C3 counterexample: the policy requests two
invocations, t1 then t2, and invoking t1 raises. -/
def firstInvocationFailsOracle : TurnOracle :=
  ⟨.ok (.obj [("tick", .num 0)]),
   .ok ⟨[⟨"t1", "argsA"⟩, ⟨"t2", "argsA"⟩], none⟩,
   fun n _ => if n = "t1" then .error (.exc "boom") else .ok .null⟩

/-- Claim C3 counterexample: the policy returned two invocations; the first
raised, so the loop body escaped to the turn boundary and only one
invocation was ever issued — the failure of t1 cancelled t2,
contradicting the claim that a failure does not cancel the remaining
invocations of the same turn. -/
theorem failed_invocation_cancels_rest_of_turn :
    execute_turn [] firstInvocationFailsOracle demoArgParse
      = ⟨[("t1", Json.obj [("x", Json.num 1)])], some (.exc "boom")⟩ ∧
    (execute_turn [] firstInvocationFailsOracle demoArgParse).calls.length = 1 :=
  ⟨rfl, rfl⟩

/-- Claim C3 (amended): the turn controller issues the requested invocations
in exactly the order the policy returned them; when no invocation
fails, every requested invocation is issued; the first failing
invocation is recorded against the turn (its exception escapes to the
turn boundary) and the remaining invocations of that turn are
skipped. The issued calls are always the longest successfully reached
initial segment of the requested list. -/
theorem invocations_in_order_prefix_on_failure :
    (∀ (runTool : String → Json → Except PyErr Json)
        (argParse : String → Option Json) (tcs : List ToolCallReq),
        (run_tool_calls runTool argParse tcs).1 =
          (tcs.map (fun tc => (tc.name, (argParse tc.arguments).getD Json.null))).take
            (run_tool_calls runTool argParse tcs).1.length) ∧
    (∀ (runTool : String → Json → Except PyErr Json)
        (argParse : String → Option Json) (tcs : List ToolCallReq),
        (run_tool_calls runTool argParse tcs).2 = none →
        (run_tool_calls runTool argParse tcs).1 =
          tcs.map (fun tc => (tc.name, (argParse tc.arguments).getD Json.null))) ∧
    (∀ (tools : List Json) (o : TurnOracle) (argParse : String → Option Json)
        (fs : List (String × Json)) (ots : List Json) (msg : LLMMessage),
        o.fetchState = .ok (Json.obj fs) →
        convert_mcp_tools_to_openai_format tools = .ok ots →
        o.llmResponse = .ok msg →
        execute_turn tools o argParse =
          ⟨(run_tool_calls o.runTool argParse msg.tool_calls).1,
           (run_tool_calls o.runTool argParse msg.tool_calls).2⟩) := by
  refine ⟨?_, ?_, ?_⟩
  · intro runTool argParse tcs
    induction tcs with
    | nil => rfl
    | cons tc rest ih =>
        cases hp : argParse tc.arguments with
        | none => simp [run_tool_calls, hp]
        | some args =>
            cases hr : runTool tc.name args with
            | error e => simp [run_tool_calls, hp, hr]
            | ok v =>
                simp only [run_tool_calls, hp, hr, List.map_cons,
                  List.length_cons, List.take_succ_cons, Option.getD_some,
                  List.cons.injEq, true_and]
                exact ih
  · intro runTool argParse tcs
    induction tcs with
    | nil => intro _; rfl
    | cons tc rest ih =>
        intro h
        cases hp : argParse tc.arguments with
        | none => simp [run_tool_calls, hp] at h
        | some args =>
            cases hr : runTool tc.name args with
            | error e => simp [run_tool_calls, hp, hr] at h
            | ok v =>
                simp [run_tool_calls, hp, hr] at h ⊢
                exact ih h
  · intro tools o argParse fs ots msg hs hc hl
    cases hm : msg.tool_calls with
    | nil => simp [execute_turn, hs, hc, hl, hm, run_tool_calls]
    | cons tc rest => simp [execute_turn, hs, hc, hl, hm]

/-- Turn oracle for the C3 witness: two requested invocations, both
succeeding. -/
def allSucceedOracle : TurnOracle :=
  ⟨.ok (.obj [("tick", .num 0)]),
   .ok ⟨[⟨"t1", "argsA"⟩, ⟨"t2", "argsA"⟩], none⟩,
   fun _ _ => .ok .null⟩

/-- Witness for the C3 theorem: with both invocations succeeding, the
turn issues both, in the order the policy returned them. -/
theorem invocations_in_order_prefix_on_failure_witness :
    (run_tool_calls (fun _ _ => Except.ok Json.null) demoArgParse
        [⟨"t1", "argsA"⟩, ⟨"t2", "argsA"⟩]).1
      = [("t1", Json.obj [("x", Json.num 1)]),
         ("t2", Json.obj [("x", Json.num 1)])] ∧
    execute_turn [] allSucceedOracle demoArgParse =
      ⟨(run_tool_calls allSucceedOracle.runTool demoArgParse
          [⟨"t1", "argsA"⟩, ⟨"t2", "argsA"⟩]).1,
       (run_tool_calls allSucceedOracle.runTool demoArgParse
          [⟨"t1", "argsA"⟩, ⟨"t2", "argsA"⟩]).2⟩ :=
  ⟨invocations_in_order_prefix_on_failure.2.1 (fun _ _ => Except.ok Json.null)
      demoArgParse [⟨"t1", "argsA"⟩, ⟨"t2", "argsA"⟩] rfl,
   invocations_in_order_prefix_on_failure.2.2 [] allSucceedOracle demoArgParse
      [("tick", Json.num 0)] []
      ⟨[⟨"t1", "argsA"⟩, ⟨"t2", "argsA"⟩], none⟩ rfl rfl rfl⟩

/-! Claim C5 (confirmed): initialization failure policy. -/

/-- Claim C5: a raising tools/list fetch escapes initialize (no try block
surrounds it), reaches the fatal handler in main, runs no turn, and
the finally-block cleanup runs; a raising map-summary fetch is caught
inside initialize, which still returns successfully with no map
summary and the warning printed, and the session proceeds into the
turn loop. -/
theorem tools_fetch_fatal_map_summary_warning :
    (∀ (e : PyErr) (mapRes : Except PyErr Json) (oracles : Nat → TurnOracle)
        (argParse : String → Option Json) (fuel : Nat),
        main_run (.error e) mapRes oracles argParse fuel
          = ⟨some e, none, [], true⟩) ∧
    (∀ (ts : List Json) (e : PyErr),
        ts.all (fun t => (Json.getField t "name").isSome) = true →
        GameAgent.initAgent (.ok ts) (.error e) = .ok ⟨ts, none, true⟩) ∧
    (∀ (ts : List Json) (e : PyErr) (oracles : Nat → TurnOracle)
        (argParse : String → Option Json) (fuel : Nat),
        ts.all (fun t => (Json.getField t "name").isSome) = true →
        main_run (.ok ts) (.error e) oracles argParse fuel =
          ⟨none, some ⟨ts, none, true⟩, run_turns ts oracles argParse fuel, true⟩) := by
  refine ⟨?_, ?_, ?_⟩
  · intro e mapRes oracles argParse fuel
    simp [main_run, GameAgent.initAgent]
  · intro ts e h
    simp [GameAgent.initAgent, h]
  · intro ts e oracles argParse fuel h
    simp [main_run, GameAgent.initAgent, h]

/-- A concrete fetched tool descriptor (scenario A). -/
def toolSendIntent : Json :=
  .obj [("name", .str "game.send_intent"), ("description", .str "d"),
        ("inputSchema", .obj [])]

/-- Witness for the C5 theorem at concrete inputs: a raising
operations fetch is fatal with no turns; a raising map-summary fetch
leaves a session that still runs its turns with no map summary and
the warning recorded. -/
theorem tools_fetch_fatal_map_summary_warning_witness :
    main_run (.error (.exc "net")) (.ok (.str "m")) allFailingOracle
        (fun _ => none) 4 = ⟨some (.exc "net"), none, [], true⟩ ∧
    GameAgent.initAgent (.ok [toolSendIntent]) (.error (.exc "net"))
        = .ok ⟨[toolSendIntent], none, true⟩ ∧
    main_run (.ok [toolSendIntent]) (.error (.exc "net")) allFailingOracle
        (fun _ => none) 1 =
      ⟨none, some ⟨[toolSendIntent], none, true⟩,
       run_turns [toolSendIntent] allFailingOracle (fun _ => none) 1, true⟩ :=
  ⟨tools_fetch_fatal_map_summary_warning.1 (.exc "net") (.ok (.str "m"))
      allFailingOracle (fun _ => none) 4,
   tools_fetch_fatal_map_summary_warning.2.1 [toolSendIntent] (.exc "net")
      (by decide),
   tools_fetch_fatal_map_summary_warning.2.2 [toolSendIntent] (.exc "net")
      allFailingOracle (fun _ => none) 1 (by decide)⟩

/-! Claim C8 (confirmed): capability adaptation is structure preserving. -/

/-- Helper: a descriptor whose name field is present converts without
raising, to its adapted form. -/
theorem convert_tool_ok (t : Json) (h : (Json.getField t "name").isSome = true) :
    convert_tool t = .ok (adapt_tool t) := by
  cases t with
  | obj fields =>
      cases hn : Json.getField (.obj fields) "name" with
      | none => rw [hn] at h; simp at h
      | some n => simp [convert_tool, hn]
  | null => simp [Json.getField] at h
  | bool b => simp [Json.getField] at h
  | num n => simp [Json.getField] at h
  | str s => simp [Json.getField] at h
  | arr xs => simp [Json.getField] at h

/-- Claim C8: when every fetched descriptor carries a name field, the
adapted list is exactly one adapted entry per fetched descriptor in
the same order (the elementwise map of adapt_tool, hence of the same
length), and each adapted entry passes the descriptor name,
description and parameter schema through unchanged. -/
theorem adaptation_is_structure_preserving :
    (∀ tools : List Json,
        (∀ t ∈ tools, (Json.getField t "name").isSome = true) →
        convert_mcp_tools_to_openai_format tools = .ok (tools.map adapt_tool)) ∧
    (∀ tools : List Json, (tools.map adapt_tool).length = tools.length) ∧
    (∀ (t n d s : Json), Json.getField t "name" = some n →
        Json.getField t "description" = some d →
        Json.getField t "inputSchema" = some s →
        adapt_tool t = .obj [("type", .str "function"),
          ("function", .obj [("name", n), ("description", d),
                             ("parameters", s)])]) := by
  refine ⟨?_, ?_, ?_⟩
  · intro tools h
    induction tools with
    | nil => rfl
    | cons t ts ih =>
        have ht : (Json.getField t "name").isSome = true :=
          h t (List.mem_cons_self t ts)
        have hts : ∀ u ∈ ts, (Json.getField u "name").isSome = true :=
          fun u hu => h u (List.mem_cons_of_mem t hu)
        simp [convert_mcp_tools_to_openai_format, convert_tool_ok t ht, ih hts]
  · intro tools
    exact List.length_map tools adapt_tool
  · intro t n d s hn hd hs
    simp [adapt_tool, hn, hd, hs]

/-- Witness for the C8 theorem at scenario A: the catalog for one
fetched descriptor named game.send_intent contains exactly one
adapted operation with the same name, description and schema. -/
theorem adaptation_is_structure_preserving_witness :
    convert_mcp_tools_to_openai_format [toolSendIntent]
      = .ok [adapt_tool toolSendIntent] ∧
    adapt_tool toolSendIntent = .obj [("type", .str "function"),
      ("function", .obj [("name", .str "game.send_intent"),
                         ("description", .str "d"),
                         ("parameters", .obj [])])] :=
  ⟨adaptation_is_structure_preserving.1 [toolSendIntent] (by decide),
   adaptation_is_structure_preserving.2.2 toolSendIntent
      (.str "game.send_intent") (.str "d") (.obj []) rfl rfl rfl⟩

/-! Claim C9 (confirmed): tool-result decode with raw-text fallback. -/

/-- Claim C9: when the tools/call result carries at least one content item
(an object), call_tool returns the structured decode of the first
item's text when json.loads succeeds on it, and returns the raw text
itself when the decode fails; the failure path is a normal return,
not a raise. -/
theorem call_tool_decode_with_fallback
    (parse : String → Option Json) (fields cf : List (String × Json))
    (cs : List Json) (s : String)
    (hcont : Json.getField (.obj fields) "content"
        = some (.arr (Json.obj cf :: cs)))
    (htext : Json.getField (.obj cf) "text" = some (.str s)) :
    (∀ v : Json, parse s = some v →
        MCPClient.call_tool parse (some (.obj fields)) = .ok v) ∧
    (parse s = none →
        MCPClient.call_tool parse (some (.obj fields)) = .ok (.str s)) := by
  constructor
  · intro v hv
    simp [MCPClient.call_tool, hcont, htext, hv]
  · intro hv
    simp [MCPClient.call_tool, hcont, htext, hv]

/-- A tools/call result whose first content item holds the text
argsA. -/
def resultWithTextArgsA : List (String × Json) :=
  [("content", .arr [.obj [("text", .str "argsA")]])]

/-- Witness for the C9 theorem at concrete inputs: with a parser that
decodes the text, the decode is returned; with one that fails, the
raw text is returned. -/
theorem call_tool_decode_with_fallback_witness :
    MCPClient.call_tool demoArgParse (some (.obj resultWithTextArgsA))
      = .ok (.obj [("x", .num 1)]) ∧
    MCPClient.call_tool (fun _ => none) (some (.obj resultWithTextArgsA))
      = .ok (.str "argsA") :=
  ⟨(call_tool_decode_with_fallback demoArgParse resultWithTextArgsA
      [("text", .str "argsA")] [] "argsA" rfl rfl).1
      (.obj [("x", .num 1)]) rfl,
   (call_tool_decode_with_fallback (fun _ => none) resultWithTextArgsA
      [("text", .str "argsA")] [] "argsA" rfl rfl).2 rfl⟩

/-! Claim C10 (confirmed): degenerate results return defaults. -/

/-- Claim C10: a resources/read result with no contents list, an empty
contents list, or a first content item without a text field makes
read_resource return the empty string without raising; a tools/call
result with an empty content list makes call_tool return Python None
without raising. -/
theorem degenerate_results_return_defaults :
    (∀ fields : List (String × Json),
        Json.getField (.obj fields) "contents" = none →
        MCPClient.read_resource (some (.obj fields)) = .ok (.str "")) ∧
    (∀ fields : List (String × Json),
        Json.getField (.obj fields) "contents" = some (.arr []) →
        MCPClient.read_resource (some (.obj fields)) = .ok (.str "")) ∧
    (∀ (fields cf : List (String × Json)) (cs : List Json),
        Json.getField (.obj fields) "contents"
            = some (.arr (Json.obj cf :: cs)) →
        Json.getField (.obj cf) "text" = none →
        MCPClient.read_resource (some (.obj fields)) = .ok (.str "")) ∧
    (∀ (parse : String → Option Json) (fields : List (String × Json)),
        Json.getField (.obj fields) "content" = some (.arr []) →
        MCPClient.call_tool parse (some (.obj fields)) = .ok .null) := by
  refine ⟨?_, ?_, ?_, ?_⟩
  · intro fields h
    simp [MCPClient.read_resource, h]
  · intro fields h
    simp [MCPClient.read_resource, h]
  · intro fields cf cs h ht
    simp [MCPClient.read_resource, h, ht]
  · intro parse fields h
    simp [MCPClient.call_tool, h]

/-- Witness for the C10 theorem at concrete inputs covering all four
degenerate shapes. -/
theorem degenerate_results_return_defaults_witness :
    MCPClient.read_resource (some (.obj [("other", .num 1)])) = .ok (.str "") ∧
    MCPClient.read_resource (some (.obj [("contents", .arr [])]))
      = .ok (.str "") ∧
    MCPClient.read_resource
        (some (.obj [("contents", .arr [.obj [("uri", .str "u")]])]))
      = .ok (.str "") ∧
    MCPClient.call_tool demoArgParse (some (.obj [("content", .arr [])]))
      = .ok .null :=
  ⟨degenerate_results_return_defaults.1 [("other", .num 1)] rfl,
   degenerate_results_return_defaults.2.1 [("contents", .arr [])] rfl,
   degenerate_results_return_defaults.2.2.1 [("contents", .arr [.obj [("uri", .str "u")]])]
      [("uri", .str "u")] [] rfl rfl,
   degenerate_results_return_defaults.2.2.2 demoArgParse [("content", .arr [])] rfl⟩
